import Mathlib

/-!
Verification development for the concisely-bot repository.

Shallow embedding of the summarization trigger engine (src/handlers.py,
`maybe_generate_summary`), the attachment description pipeline
(`_describe_attachment`), the prompt assembler (src/llm.py) and the
relevant helpers from src/utils.py and src/db.py.

Modelling conventions:
- Python `str` is `String`, Python `int` is `Int`, Python floats (costs)
  are modelled as `Rat` (only their presence/absence matters here).
- A Python dict key that may be absent is an `Option` field; `dict.get(k)`
  on an absent key is `none`.
- Python truthiness of optional strings/ints is made explicit
  (`truthyOptStr`, `truthyOptInt`): `None`, `""` and `0` are falsy.
- `str.join` is embedded as `joinParts`.
- External effects (DB reads/writes, Telegram downloads/sends, model
  calls) are oracles threaded through explicit environment records;
  an `Except.error` value models the call raising an exception.
- Wall-clock timing fields (`duration_ms`, the returned elapsed times)
  are not modelled.
-/

/-- Python truthiness for an optional string: `None` and `""` are falsy. -/
def truthyOptStr : Option String → Bool
  | none => false
  | some s => !s.isEmpty

/-- Python truthiness for an optional int: `None` and `0` are falsy. -/
def truthyOptInt : Option Int → Bool
  | none => false
  | some i => i != 0

/-- Association-list lookup; models a keyed `SELECT ... LIMIT 1`. -/
def lookupAssoc {α β : Type} [DecidableEq α] : List (α × β) → α → Option β
  | [], _ => none
  | (k', v) :: rest, k => if k' = k then some v else lookupAssoc rest k

/-- Association-list upsert; models `UPSERT chat_state SET ... WHERE chat_id`. -/
def setAssoc {α β : Type} [DecidableEq α] : List (α × β) → α → β → List (α × β)
  | [], k, v => [(k, v)]
  | (k', v') :: rest, k, v =>
      if k' = k then (k, v) :: rest else (k', v') :: setAssoc rest k v

/-- Embeds Python `sep.join(parts)`. -/
def joinParts (sep : String) : List String → String
  | [] => ""
  | [x] => x
  | x :: y :: rest => x ++ sep ++ joinParts sep (y :: rest)

/-- Attachment dict as built by `get_attachment_info` and enriched by
`_describe_attachment` (src/utils.py, src/handlers.py). Absent keys are `none`. -/
structure AttInfo where
  type : String
  emoji : Option String := none
  file_name : Option String := none
  question : Option String := none
  options : List String := []
  names : Option String := none
  description : Option String := none
  describe_cost : Option Rat := none
  deriving DecidableEq, Repr

/-- Message record as persisted by `save_message` and consumed by
`format_message_for_prompt` (src/db.py, src/llm.py). -/
structure MsgData where
  chat_id : Int := 0
  message_id : Int
  sender_id : Option Int := none
  sender_name : String
  text : String := ""
  reply_to_message_id : Option Int := none
  timestamp : Option String := none
  attachment : Option AttInfo := none
  forward_sender_name : Option String := none
  deriving DecidableEq, Repr

/-- Embeds Python `text.split("\n")` (character-level, structural). -/
def splitOnNewline : List Char → List String
  | [] => [""]
  | c :: cs =>
    let rest := splitOnNewline cs
    if c = '\n' then "" :: rest
    else
      match rest with
      | [] => [String.mk [c]]
      | r :: rs => String.mk (c :: r.data) :: rs

/-- src/llm.py `_indent`: prefix every line with two spaces. -/
def _indent (text : String) : String :=
  joinParts "\n" ((splitOnNewline text.data).map (fun line => "  " ++ line))

/-- src/llm.py `_format_attachment_block`. -/
def _format_attachment_block (attachment : Option AttInfo)
    (description : Option String := none) : Option String :=
  match attachment with
  | none => none
  | some att =>
    let att_type := att.type
    if att_type = "photo" then
      if truthyOptStr description then
        some ("<photo>\n" ++ _indent (description.getD "") ++ "\n</photo>")
      else some "<photo />"
    else if att_type = "voice" then
      if truthyOptStr description then
        some ("<voice>\n" ++ _indent (description.getD "") ++ "\n</voice>")
      else some "<voice />"
    else if att_type = "video_note" then
      if truthyOptStr description then
        some ("<video_note>\n" ++ _indent (description.getD "") ++ "\n</video_note>")
      else some "<video_note />"
    else if att_type = "video" then
      some "<video />"
    else if att_type = "animation" then
      some "<gif />"
    else if att_type = "sticker" then
      if truthyOptStr description then
        some ("<sticker>\n" ++ _indent (description.getD "") ++ "\n</sticker>")
      else
        let emoji := att.emoji.getD ""
        if emoji ≠ "" then some ("<sticker>" ++ emoji ++ "</sticker>")
        else some "<sticker />"
    else if att_type = "document" then
      let file_name := att.file_name.getD "файл"
      some ("<document>" ++ file_name ++ "</document>")
    else if att_type = "poll" then
      let question := att.question.getD ""
      let options := att.options
      if options ≠ [] then
        let options_str := joinParts "\n" (options.map (fun opt => "  - " ++ opt))
        some ("<poll>" ++ question ++ "\n" ++ options_str ++ "\n</poll>")
      else some ("<poll>" ++ question ++ "</poll>")
    else if att_type = "location" then
      some "<location />"
    else if att_type = "new_members" then
      let names := att.names.getD ""
      some ("<new_members>" ++ names ++ "</new_members>")
    else none

/-- src/llm.py `_get_attachment_description`. -/
def _get_attachment_description (msg_data : MsgData) : Option String :=
  match msg_data.attachment with
  | some att => att.description
  | none => none

/-- The bracketed labels of src/llm.py `format_message_for_prompt`
(`reply to <id>`, `forward from <name>`). -/
def messageLabels (m : MsgData) : List String :=
  (if truthyOptInt m.reply_to_message_id then
     ["reply to " ++ toString (m.reply_to_message_id.getD 0)]
   else []) ++
  (if truthyOptStr m.forward_sender_name then
     ["forward from " ++ m.forward_sender_name.getD ""]
   else [])

/-- The `### <id> <name>[ labels]` header line of `format_message_for_prompt`. -/
def messageHeader (m : MsgData) : String :=
  let labels := messageLabels m
  let labels_str :=
    if labels ≠ [] then " [" ++ joinParts ", " labels ++ "]" else ""
  "### " ++ toString m.message_id ++ " " ++ m.sender_name ++ labels_str

/-- src/llm.py `format_message_for_prompt`. -/
def format_message_for_prompt (m : MsgData) : String :=
  let parts : List String :=
    [messageHeader m] ++
    (if !m.text.isEmpty then [_indent m.text] else []) ++
    (match _format_attachment_block m.attachment (_get_attachment_description m) with
     | some block => [block]
     | none => [])
  joinParts "\n" parts

/-- The user object of an inbound Telegram message (aiogram `User`):
only the fields the handlers read. -/
structure TgUser where
  id : Int
  full_name : String
  deriving DecidableEq, Repr

/-- aiogram `Sticker`: the fields read by `_describe_attachment` and
`get_attachment_info`. `thumbnail` holds the thumbnail's `file_id` when present. -/
structure TgSticker where
  file_id : String
  file_unique_id : String
  is_animated : Bool := false
  is_video : Bool := false
  thumbnail : Option String := none
  emoji : Option String := none
  deriving DecidableEq, Repr

/-- aiogram `Chat` as read by `get_forward_sender_name` (only the title). -/
structure TgChat where
  title : Option String := none
  deriving DecidableEq, Repr

/-- An inbound Telegram message (aiogram `Message`): the fields read by
src/utils.py and src/handlers.py. `photo` / `video_note` hold the relevant
`file_id` when the media is present. -/
structure TgMessage where
  chat_id : Int
  message_id : Int
  content_type : String
  text : Option String := none
  caption : Option String := none
  photo : Option String := none
  sticker : Option TgSticker := none
  video_note : Option String := none
  document_file_name : Option String := none
  poll_question : Option String := none
  poll_options : List String := []
  new_chat_members : List String := []
  from_user : Option TgUser := none
  reply_to_message_id : Option Int := none
  date : Option String := none
  forward_from : Option TgUser := none
  forward_sender_name : Option String := none
  forward_from_chat : Option TgChat := none
  deriving DecidableEq, Repr

/-- src/utils.py `get_message_text`: text, else caption, else `""`. -/
def get_message_text (message : TgMessage) : String :=
  if truthyOptStr message.text then message.text.getD ""
  else if truthyOptStr message.caption then message.caption.getD ""
  else ""

/-- src/utils.py `_ATTACHMENT_TYPES`. -/
def _ATTACHMENT_TYPES : List String :=
  ["photo", "voice", "video_note", "sticker", "video",
   "animation", "document", "poll", "location", "new_chat_members"]

/-- src/utils.py `get_attachment_info`. -/
def get_attachment_info (message : TgMessage) : Option AttInfo :=
  let ct := message.content_type
  if ct ∉ _ATTACHMENT_TYPES then none
  else if ct = "sticker" ∧ message.sticker.isSome then
    some { type := ct,
           emoji := some (((message.sticker.map TgSticker.emoji).join).getD "") }
  else if ct = "document" ∧ message.document_file_name.isSome then
    some { type := ct, file_name := some (message.document_file_name.getD "") }
  else if ct = "poll" ∧ message.poll_question.isSome then
    some { type := ct, question := message.poll_question,
           options := message.poll_options }
  else if ct = "new_chat_members" ∧ message.new_chat_members ≠ [] then
    some { type := "new_members",
           names := some (joinParts ", " message.new_chat_members) }
  else
    some { type := ct }

/-- src/utils.py `get_sender_name`. -/
def get_sender_name (message : TgMessage) : String :=
  match message.from_user with
  | some u => if !u.full_name.isEmpty then u.full_name else "Service"
  | none => "Service"

/-- src/utils.py `get_forward_sender_name`: the forward-origin resolver
(present in the repository but never invoked by `handle_message`). -/
def get_forward_sender_name (message : TgMessage) : Option String :=
  match message.forward_from with
  | some u => if u.full_name.isEmpty then none else some u.full_name
  | none =>
    if truthyOptStr message.forward_sender_name then message.forward_sender_name
    else match message.forward_from_chat with
      | some chat => chat.title
      | none => none

/-- src/llm.py `DescribeResult`. -/
structure DescribeResult where
  text : String
  cost : Option Rat := none
  deriving DecidableEq, Repr

/-- Oracle for the external calls issued by `_describe_attachment`:
the Telegram file download and the (single) vision-model description
call. `Except.error` models the call raising. -/
structure DescribeEnv where
  downloadResult : Except String Unit := .ok ()
  visionResult : Except String DescribeResult
  deriving Repr

/-- src/handlers.py `_describe_attachment`, as a function of the
sticker-description cache (src/db.py `sticker_cache` table, an
association list `file_unique_id → description`).

Returns the (possibly enriched) attachment, the updated cache, and the
number of remote model calls issued. Exceptions from the download or the
model call are caught (description stays absent). Note the dispatch
handles only `photo`, `sticker` and `video_note`; every other type —
including `voice` — falls to the final branch and is returned untouched. -/
def _describe_attachment (env : DescribeEnv) (cache : List (String × String))
    (message : TgMessage) (attachment : Option AttInfo) :
    Option AttInfo × List (String × String) × Nat :=
  match attachment with
  | none => (none, cache, 0)
  | some att =>
    let att_type := att.type
    if att_type = "photo" ∧ message.photo.isSome then
      match env.downloadResult with
      | .error _ => (some att, cache, 0)
      | .ok _ =>
        match env.visionResult with
        | .error _ => (some att, cache, 1)
        | .ok r =>
          (some { att with description := some r.text, describe_cost := r.cost },
           cache, 1)
    else if att_type = "sticker" ∧ message.sticker.isSome then
      match message.sticker with
      | none => (some att, cache, 0)
      | some sticker =>
        match lookupAssoc cache sticker.file_unique_id with
        | some cached => (some { att with description := some cached }, cache, 0)
        | none =>
          if (sticker.is_animated || sticker.is_video) ∧ sticker.thumbnail.isNone then
            (some att, cache, 0)
          else
            match env.downloadResult with
            | .error _ => (some att, cache, 0)
            | .ok _ =>
              match env.visionResult with
              | .error _ => (some att, cache, 1)
              | .ok r =>
                (some { att with description := some r.text, describe_cost := r.cost },
                 cache ++ [(sticker.file_unique_id, r.text)], 1)
    else if att_type = "video_note" ∧ message.video_note.isSome then
      match env.downloadResult with
      | .error _ => (some att, cache, 0)
      | .ok _ =>
        match env.visionResult with
        | .error _ => (some att, cache, 1)
        | .ok r =>
          (some { att with description := some r.text, describe_cost := r.cost },
           cache, 1)
    else
      (some att, cache, 0)

/-- The message record persisted by src/handlers.py `handle_message` via
`save_message`: exactly the keyword arguments of the call at lines
228–238. No `forward_sender_name` key is ever passed, so the stored
record has that field absent (`none`). -/
def saved_message_record (message : TgMessage) (attachment : Option AttInfo) :
    MsgData :=
  { chat_id := message.chat_id
    message_id := message.message_id
    sender_id := message.from_user.map TgUser.id
    sender_name := get_sender_name message
    text := get_message_text message
    reply_to_message_id := message.reply_to_message_id
    timestamp := message.date
    attachment := attachment
    forward_sender_name := none }

/-- Insertion into a list sorted by `message_id` ascending. -/
def insertByMessageId (x : MsgData) : List MsgData → List MsgData
  | [] => [x]
  | y :: ys =>
    if x.message_id ≤ y.message_id then x :: y :: ys
    else y :: insertByMessageId x ys

/-- Insertion sort by `message_id` ascending (the `ORDER BY message_id ASC`). -/
def sortByMessageId (l : List MsgData) : List MsgData :=
  l.foldr insertByMessageId []

/-- src/db.py `get_messages` (imported by src/handlers.py as
`get_messages_for_summary`): all stored messages of the chat with
`from_id < message_id ≤ to_id`, ordered by `message_id` ascending. -/
def get_messages_for_summary (store : List MsgData)
    (chat_id from_id to_id : Int) : List MsgData :=
  sortByMessageId (store.filter
    (fun r => r.chat_id = chat_id ∧ from_id < r.message_id ∧ r.message_id ≤ to_id))

/-- src/llm.py `SummaryResult` (the outcome of `generate_summary`). -/
structure SummaryResult where
  text : String
  model : String
  input_tokens : Option Int := none
  output_tokens : Option Int := none
  cost : Option Rat := none
  deriving DecidableEq, Repr

/-- The `summary` audit record persisted by src/db.py `save_summary`
(the wall-clock `duration_ms` field is not modelled). -/
structure SummaryRecord where
  chat_id : Int
  from_message_id : Int
  to_message_id : Int
  model : String
  summary_text : String
  input_tokens : Option Int := none
  output_tokens : Option Int := none
  cost : Option Rat := none
  deriving DecidableEq, Repr

/-- The `summary_info` dict built by src/handlers.py
`maybe_generate_summary` (timing fields not modelled). -/
structure SummaryInfo where
  attempted : Bool := false
  sent : Bool := false
  reason : Option String := none
  last_summary_id : Option Int := none
  new_last_summary_id : Option Int := none
  messages_since_last : Option Int := none
  interval : Option Int := none
  messages_count : Option Nat := none
  model : Option String := none
  summary_chars : Option Nat := none
  cost : Option Rat := none
  error : Option String := none
  deriving DecidableEq, Repr

/-- The mutable state touched by the trigger engine: the per-chat
watermarks (`chat_state` table), the module-level `generating_chats`
set, the `message` table, and the `summary` audit table. -/
structure TriggerState where
  watermarks : List (Int × Int) := []
  generatingChats : List Int := []
  store : List MsgData := []
  summaries : List SummaryRecord := []
  deriving DecidableEq, Repr

/-- src/config.py: the `SUMMARY_INTERVAL` default (env-configured) and the
`SUMMARY_INTERVALS` per-chat map. -/
structure Config where
  summary_interval : Int
  summary_intervals : List (Int × Int) := []
  deriving DecidableEq, Repr

/-- src/handlers.py line 83: `SUMMARY_INTERVALS.get(chat_id, SUMMARY_INTERVAL)`. -/
def chatInterval (cfg : Config) (chat_id : Int) : Int :=
  (lookupAssoc cfg.summary_intervals chat_id).getD cfg.summary_interval

/-- Oracle for the external calls of the generation attempt (try block,
src/handlers.py lines 94–135): the window fetch DB call, the model call
(`generate_summary`, which renders the prompt internally), the Telegram
send (after its internal plain-text fallback), the watermark write, and
the summary-record write. `Except.error` models the call raising. -/
structure GenEnv where
  fetchOk : Except String Unit := .ok ()
  modelResult : Except String SummaryResult
  sendOk : Except String Unit := .ok ()
  setWatermarkOk : Except String Unit := .ok ()
  saveSummaryOk : Except String Unit := .ok ()

/-- `generating_chats.discard(chat_id)` in the `finally` block. -/
def clearGenerating (st : TriggerState) (chat_id : Int) : TriggerState :=
  { st with generatingChats := st.generatingChats.filter (fun c => c ≠ chat_id) }

/-- The try/except/finally block of src/handlers.py
`maybe_generate_summary` (lines 93–140), entered with the generating
flag already set. Returns the final `summary_info`, the final state
(flag cleared on every path), and the number of summarization model
calls issued. -/
def run_generation (env : GenEnv) (st : TriggerState) (info : SummaryInfo)
    (last_summary_id current_message_id chat_id : Int) :
    SummaryInfo × TriggerState × Nat :=
  let info := { info with attempted := true }
  match env.fetchOk with
  | .error e =>
    ({ info with reason := some "error", error := some e },
     clearGenerating st chat_id, 0)
  | .ok _ =>
    let messages :=
      get_messages_for_summary st.store chat_id last_summary_id current_message_id
    let info := { info with messages_count := some messages.length }
    if messages.isEmpty then
      ({ info with reason := some "no_messages" }, clearGenerating st chat_id, 0)
    else
      match env.modelResult with
      | .error e =>
        ({ info with reason := some "error", error := some e },
         clearGenerating st chat_id, 1)
      | .ok result =>
        match env.sendOk with
        | .error e =>
          ({ info with reason := some "error", error := some e },
           clearGenerating st chat_id, 1)
        | .ok _ =>
          let info := { info with model := some result.model,
                                  summary_chars := some result.text.length,
                                  cost := result.cost }
          match env.setWatermarkOk with
          | .error e =>
            ({ info with reason := some "error", error := some e },
             clearGenerating st chat_id, 1)
          | .ok _ =>
            -- line 113: the watermark is written here, before save_summary
            let st := { st with
              watermarks := setAssoc st.watermarks chat_id current_message_id }
            let info := { info with new_last_summary_id := some current_message_id,
                                    sent := true }
            match env.saveSummaryOk with
            | .error e =>
              ({ info with reason := some "error", error := some e },
               clearGenerating st chat_id, 1)
            | .ok _ =>
              let st := { st with summaries := st.summaries ++
                [{ chat_id := chat_id,
                   from_message_id := last_summary_id,
                   to_message_id := current_message_id,
                   model := result.model,
                   summary_text := result.text,
                   input_tokens := result.input_tokens,
                   output_tokens := result.output_tokens,
                   cost := result.cost }] }
              (info, clearGenerating st chat_id, 1)

/-- src/handlers.py `maybe_generate_summary` (lines 52–140).

The double-checked locking is modelled by two state observations:
`stEntry` is the state at the lock-free fast-path check (line 61), and
`stLocked` is the state observed once the per-chat lock is held (line
70) — between the two, other tasks may have changed the
`generating_chats` set. The rest of the operation runs on `stLocked`;
while the lock is held no interleaving can occur, and after the flag is
set every concurrent call short-circuits on one of the two checks. -/
def maybe_generate_summary (cfg : Config) (env : GenEnv)
    (stEntry stLocked : TriggerState) (current_message_id chat_id : Int) :
    SummaryInfo × TriggerState × Nat :=
  let info : SummaryInfo := {}
  if chat_id ∈ stEntry.generatingChats then
    ({ info with reason := some "already_generating" }, stEntry, 0)
  else if chat_id ∈ stLocked.generatingChats then
    ({ info with reason := some "already_generating" }, stLocked, 0)
  else
    match lookupAssoc stLocked.watermarks chat_id with
    | none =>
      ({ info with reason := some "first_run",
                   new_last_summary_id := some current_message_id },
       { stLocked with
         watermarks := setAssoc stLocked.watermarks chat_id current_message_id },
       0)
    | some last_summary_id =>
      let info := { info with last_summary_id := some last_summary_id }
      let interval := chatInterval cfg chat_id
      if current_message_id - last_summary_id < interval then
        ({ info with reason := some "interval_not_reached",
                     messages_since_last :=
                       some (current_message_id - last_summary_id),
                     interval := some interval },
         stLocked, 0)
      else
        let st := { stLocked with
          generatingChats := chat_id :: stLocked.generatingChats }
        run_generation env st info last_summary_id current_message_id chat_id

theorem filter_ne_self : ∀ {l : List Int} {c : Int}, c ∉ l →
    l.filter (fun x => x ≠ c) = l
  | [], _, _ => rfl
  | a :: as, c, h => by
    simp only [List.mem_cons, not_or] at h
    have ha : a ≠ c := fun e => h.1 e.symm
    rw [List.filter_cons, if_pos (decide_eq_true ha), filter_ne_self h.2]

/-- Setting then discarding the generating flag of a chat that was not
generating restores the original state. -/
theorem clearGenerating_fresh (st : TriggerState) (chat_id : Int)
    (h : chat_id ∉ st.generatingChats) :
    clearGenerating
      { st with generatingChats := chat_id :: st.generatingChats } chat_id = st := by
  unfold clearGenerating
  rw [List.filter_cons, if_neg (by simp), filter_ne_self h]

theorem lookupAssoc_setAssoc {α β : Type} [DecidableEq α]
    (l : List (α × β)) (k : α) (v : β) :
    lookupAssoc (setAssoc l k v) k = some v := by
  induction l with
  | nil => simp [setAssoc, lookupAssoc]
  | cons p rest ih =>
    obtain ⟨k', v'⟩ := p
    by_cases h : k' = k
    · simp [setAssoc, lookupAssoc, h]
    · simp [setAssoc, lookupAssoc, h, ih]

/-- Concrete fixtures used by the witnesses below. -/
def cfgEx : Config := { summary_interval := 7 }

def srEx : SummaryResult := { text := "s", model := "anthropic/claude-opus-4.5" }

def envOkEx : GenEnv := { modelResult := .ok srEx }

def stGenEx : TriggerState := { generatingChats := [5] }

def stEmptyEx : TriggerState := {}

/-- A state in constructor form with the flag freshly set clears back to
the same fields without the flag. -/
theorem clearGenerating_mk (chat_id : Int) (l : List Int) (h : chat_id ∉ l)
    (W : List (Int × Int)) (M : List MsgData) (S : List SummaryRecord) :
    clearGenerating ⟨W, chat_id :: l, M, S⟩ chat_id = ⟨W, l, M, S⟩ := by
  unfold clearGenerating
  rw [List.filter_cons, if_neg (by simp), filter_ne_self h]

def msgEx : MsgData :=
  { chat_id := 1, message_id := 107, sender_name := "Alice", text := "hi" }

def stWmEx : TriggerState := { watermarks := [(1, 100)], store := [msgEx] }

def stWmEmptyStoreEx : TriggerState := { watermarks := [(1, 100)] }

/-- Claim C1: if a generation for the chat is in flight — observed either
at the lock-free fast-path check or at the re-check under the per-chat
lock — `maybe_generate_summary` returns reason `already_generating`,
leaves the observed state (watermarks included) unchanged, and issues no
model call. -/
theorem c1_single_flight (cfg : Config) (env : GenEnv)
    (stEntry stLocked : TriggerState) (current_message_id chat_id : Int)
    (h : chat_id ∈ stEntry.generatingChats ∨ chat_id ∈ stLocked.generatingChats) :
    maybe_generate_summary cfg env stEntry stLocked current_message_id chat_id =
      ({ reason := some "already_generating" },
       if chat_id ∈ stEntry.generatingChats then stEntry else stLocked, 0) := by
  by_cases h1 : chat_id ∈ stEntry.generatingChats
  · simp [maybe_generate_summary, h1]
  · rcases h with h2 | h2
    · exact absurd h2 h1
    · simp [maybe_generate_summary, h1, h2]

theorem c1_single_flight_witness :
    (5 ∈ stGenEx.generatingChats ∨ 5 ∈ stGenEx.generatingChats) ∧
    maybe_generate_summary cfgEx envOkEx stGenEx stGenEx 107 5 =
      ({ reason := some "already_generating" },
       if 5 ∈ stGenEx.generatingChats then stGenEx else stGenEx, 0) :=
  ⟨Or.inl (by decide),
   c1_single_flight cfgEx envOkEx stGenEx stGenEx 107 5 (Or.inl (by decide))⟩

/-- Claim C6: for a chat with no existing watermark and no generation in
flight, the first `maybe_generate_summary` call sets the watermark to the
current message id, returns reason `first_run`, performs no summarization
attempt and issues no model call. -/
theorem c6_first_run (cfg : Config) (env : GenEnv)
    (stEntry stLocked : TriggerState) (current_message_id chat_id : Int)
    (h1 : chat_id ∉ stEntry.generatingChats)
    (h2 : chat_id ∉ stLocked.generatingChats)
    (h3 : lookupAssoc stLocked.watermarks chat_id = none) :
    maybe_generate_summary cfg env stEntry stLocked current_message_id chat_id =
      ({ reason := some "first_run",
         new_last_summary_id := some current_message_id },
       { stLocked with
         watermarks := setAssoc stLocked.watermarks chat_id current_message_id },
       0) ∧
    lookupAssoc (setAssoc stLocked.watermarks chat_id current_message_id)
      chat_id = some current_message_id := by
  refine ⟨?_, lookupAssoc_setAssoc ..⟩
  simp [maybe_generate_summary, h1, h2, h3]

theorem c6_first_run_witness :
    (1 ∉ stEmptyEx.generatingChats) ∧
    (lookupAssoc stEmptyEx.watermarks 1 = none) ∧
    maybe_generate_summary cfgEx envOkEx stEmptyEx stEmptyEx 42 1 =
      ({ reason := some "first_run", new_last_summary_id := some 42 },
       { stEmptyEx with watermarks := setAssoc stEmptyEx.watermarks 1 42 }, 0) ∧
    lookupAssoc (setAssoc stEmptyEx.watermarks 1 42) 1 = some 42 :=
  ⟨by decide, by decide,
   c6_first_run cfgEx envOkEx stEmptyEx stEmptyEx 42 1
     (by decide) (by decide) (by decide)⟩

/-- Claim C2: with an existing watermark `w` and no generation in flight,
a message below the interval threshold returns `interval_not_reached`
with no side effects; a message reaching the threshold (when the
external calls succeed and the window is nonempty) triggers exactly one
model call over the window `(w, current_message_id]`, appends the
corresponding summary record, and advances the watermark to the
triggering message id. -/
theorem c2_interval_threshold (cfg : Config) (env : GenEnv) (st : TriggerState)
    (current_message_id chat_id w : Int)
    (hgen : chat_id ∉ st.generatingChats)
    (hw : lookupAssoc st.watermarks chat_id = some w) :
    (current_message_id - w < chatInterval cfg chat_id →
      maybe_generate_summary cfg env st st current_message_id chat_id =
        ({ reason := some "interval_not_reached", last_summary_id := some w,
           messages_since_last := some (current_message_id - w),
           interval := some (chatInterval cfg chat_id) }, st, 0)) ∧
    (chatInterval cfg chat_id ≤ current_message_id - w →
     env.fetchOk = .ok () → env.sendOk = .ok () →
     env.setWatermarkOk = .ok () → env.saveSummaryOk = .ok () →
     ∀ r, env.modelResult = .ok r →
     get_messages_for_summary st.store chat_id w current_message_id ≠ [] →
      maybe_generate_summary cfg env st st current_message_id chat_id =
        ({ attempted := true, sent := true, last_summary_id := some w,
           new_last_summary_id := some current_message_id,
           messages_count := some
             (get_messages_for_summary st.store chat_id w
               current_message_id).length,
           model := some r.model, summary_chars := some r.text.length,
           cost := r.cost },
         { st with
           watermarks := setAssoc st.watermarks chat_id current_message_id,
           summaries := st.summaries ++
             [{ chat_id := chat_id, from_message_id := w,
                to_message_id := current_message_id, model := r.model,
                summary_text := r.text, input_tokens := r.input_tokens,
                output_tokens := r.output_tokens, cost := r.cost }] },
         1) ∧
      lookupAssoc (setAssoc st.watermarks chat_id current_message_id)
        chat_id = some current_message_id) := by
  constructor
  · intro hlt
    simp [maybe_generate_summary, hgen, hw, if_pos hlt]
  · intro hge hfetch hsend hsetwm hsave r hmodel hne
    refine ⟨?_, lookupAssoc_setAssoc ..⟩
    have hnotlt : ¬(current_message_id - w < chatInterval cfg chat_id) :=
      not_lt.mpr hge
    have hempty :
        (get_messages_for_summary st.store chat_id w
          current_message_id).isEmpty = false := by
      simpa [List.isEmpty_iff] using hne
    obtain ⟨W, G, M, S⟩ := st
    simp only [List.mem_cons] at hgen
    simp [maybe_generate_summary, run_generation, hgen, hw, hnotlt, hfetch,
          hsend, hsetwm, hsave, hmodel, hempty,
          clearGenerating_mk chat_id G hgen]

theorem c2_interval_threshold_witness :
    (1 ∉ stWmEx.generatingChats) ∧
    (lookupAssoc stWmEx.watermarks 1 = some 100) ∧
    ((107 - 100 < chatInterval cfgEx 1 →
      maybe_generate_summary cfgEx envOkEx stWmEx stWmEx 107 1 =
        ({ reason := some "interval_not_reached", last_summary_id := some 100,
           messages_since_last := some (107 - 100),
           interval := some (chatInterval cfgEx 1) }, stWmEx, 0)) ∧
     (chatInterval cfgEx 1 ≤ 107 - 100 →
      envOkEx.fetchOk = .ok () → envOkEx.sendOk = .ok () →
      envOkEx.setWatermarkOk = .ok () → envOkEx.saveSummaryOk = .ok () →
      ∀ r, envOkEx.modelResult = .ok r →
      get_messages_for_summary stWmEx.store 1 100 107 ≠ [] →
       maybe_generate_summary cfgEx envOkEx stWmEx stWmEx 107 1 =
         ({ attempted := true, sent := true, last_summary_id := some 100,
            new_last_summary_id := some 107,
            messages_count :=
              some (get_messages_for_summary stWmEx.store 1 100 107).length,
            model := some r.model, summary_chars := some r.text.length,
            cost := r.cost },
          { stWmEx with
            watermarks := setAssoc stWmEx.watermarks 1 107,
            summaries := stWmEx.summaries ++
              [{ chat_id := 1, from_message_id := 100, to_message_id := 107,
                 model := r.model, summary_text := r.text,
                 input_tokens := r.input_tokens,
                 output_tokens := r.output_tokens, cost := r.cost }] },
          1) ∧
       lookupAssoc (setAssoc stWmEx.watermarks 1 107) 1 = some 107)) :=
  ⟨by decide, by decide,
   c2_interval_threshold cfgEx envOkEx stWmEx 107 1 100 (by decide) (by decide)⟩

/-- Claim C5: a triggered generation whose fetched window is empty records
reason `no_messages`, issues no model call, does not advance the
watermark, and (the generating flag having been cleared) leaves the state
exactly as it was. -/
theorem c5_no_messages (cfg : Config) (env : GenEnv) (st : TriggerState)
    (current_message_id chat_id w : Int)
    (hgen : chat_id ∉ st.generatingChats)
    (hw : lookupAssoc st.watermarks chat_id = some w)
    (hge : chatInterval cfg chat_id ≤ current_message_id - w)
    (hfetch : env.fetchOk = .ok ())
    (hempty : get_messages_for_summary st.store chat_id w current_message_id = []) :
    maybe_generate_summary cfg env st st current_message_id chat_id =
      ({ attempted := true, last_summary_id := some w,
         messages_count := some 0, reason := some "no_messages" }, st, 0) := by
  have hnotlt : ¬(current_message_id - w < chatInterval cfg chat_id) :=
    not_lt.mpr hge
  obtain ⟨W, G, M, S⟩ := st
  simp only [List.mem_cons] at hgen
  simp [maybe_generate_summary, run_generation, hgen, hw, hnotlt, hfetch,
        hempty, clearGenerating_mk chat_id G hgen]

theorem c5_no_messages_witness :
    (1 ∉ stWmEmptyStoreEx.generatingChats) ∧
    (lookupAssoc stWmEmptyStoreEx.watermarks 1 = some 100) ∧
    (chatInterval cfgEx 1 ≤ 107 - 100) ∧
    (get_messages_for_summary stWmEmptyStoreEx.store 1 100 107 = []) ∧
    maybe_generate_summary cfgEx envOkEx stWmEmptyStoreEx stWmEmptyStoreEx 107 1 =
      ({ attempted := true, last_summary_id := some 100,
         messages_count := some 0, reason := some "no_messages" },
       stWmEmptyStoreEx, 0) :=
  ⟨by decide, by decide, by decide, by decide,
   c5_no_messages cfgEx envOkEx stWmEmptyStoreEx 107 1 100
     (by decide) (by decide) (by decide) rfl (by decide)⟩

def envSaveFailEx : GenEnv :=
  { modelResult := .ok srEx, saveSummaryOk := .error "db write failed" }

/-- Claim C4, counterexample: with watermark 100 and a qualifying message
107, if everything succeeds except persisting the Summary audit record,
the call is recorded with reason `error` — but the watermark HAS advanced
to 107 (it is written at line 113, before `save_summary` at line 118), so
the claim's "the watermark is not advanced" is false for a persistence
failure. -/
theorem c4_counterexample :
    (maybe_generate_summary cfgEx envSaveFailEx stWmEx stWmEx 107 1).1.reason
      = some "error" ∧
    (maybe_generate_summary cfgEx envSaveFailEx stWmEx stWmEx 107 1).1.error
      = some "db write failed" ∧
    lookupAssoc stWmEx.watermarks 1 = some 100 ∧
    lookupAssoc
      (maybe_generate_summary cfgEx envSaveFailEx stWmEx stWmEx 107 1).2.1.watermarks
      1 = some 107 := by
  refine ⟨?_, ?_, ?_, ?_⟩ <;> decide

/-- Claim C4 (amended): a failure in the window fetch, the model call,
the send, or the watermark write is caught, recorded with reason `error`
plus the underlying message, clears the generating flag and leaves the
state (watermark included) unchanged; a failure while appending the
Summary audit record is likewise caught and recorded with the flag
cleared and no summary appended, but it occurs after the watermark write,
so the watermark has already advanced to the triggering message id. -/
theorem c4_error_paths (cfg : Config) (env : GenEnv) (st : TriggerState)
    (current_message_id chat_id w : Int)
    (hgen : chat_id ∉ st.generatingChats)
    (hw : lookupAssoc st.watermarks chat_id = some w)
    (hge : chatInterval cfg chat_id ≤ current_message_id - w) :
    (∀ e, env.fetchOk = .error e →
      maybe_generate_summary cfg env st st current_message_id chat_id =
        ({ attempted := true, last_summary_id := some w,
           reason := some "error", error := some e }, st, 0)) ∧
    (env.fetchOk = .ok () →
     get_messages_for_summary st.store chat_id w current_message_id ≠ [] →
     ((∀ e, env.modelResult = .error e →
        maybe_generate_summary cfg env st st current_message_id chat_id =
          ({ attempted := true, last_summary_id := some w,
             messages_count := some
               (get_messages_for_summary st.store chat_id w
                 current_message_id).length,
             reason := some "error", error := some e }, st, 1)) ∧
      (∀ r e, env.modelResult = .ok r → env.sendOk = .error e →
        maybe_generate_summary cfg env st st current_message_id chat_id =
          ({ attempted := true, last_summary_id := some w,
             messages_count := some
               (get_messages_for_summary st.store chat_id w
                 current_message_id).length,
             reason := some "error", error := some e }, st, 1)) ∧
      (∀ r e, env.modelResult = .ok r → env.sendOk = .ok () →
       env.setWatermarkOk = .error e →
        maybe_generate_summary cfg env st st current_message_id chat_id =
          ({ attempted := true, last_summary_id := some w,
             messages_count := some
               (get_messages_for_summary st.store chat_id w
                 current_message_id).length,
             model := some r.model, summary_chars := some r.text.length,
             cost := r.cost,
             reason := some "error", error := some e }, st, 1)) ∧
      (∀ r e, env.modelResult = .ok r → env.sendOk = .ok () →
       env.setWatermarkOk = .ok () → env.saveSummaryOk = .error e →
        maybe_generate_summary cfg env st st current_message_id chat_id =
          ({ attempted := true, sent := true, last_summary_id := some w,
             new_last_summary_id := some current_message_id,
             messages_count := some
               (get_messages_for_summary st.store chat_id w
                 current_message_id).length,
             model := some r.model, summary_chars := some r.text.length,
             cost := r.cost,
             reason := some "error", error := some e },
           { st with watermarks :=
               setAssoc st.watermarks chat_id current_message_id }, 1)))) := by
  have hnotlt : ¬(current_message_id - w < chatInterval cfg chat_id) :=
    not_lt.mpr hge
  obtain ⟨W, G, M, S⟩ := st
  simp only [List.mem_cons] at hgen
  refine ⟨fun e hf => ?_, fun hf hne => ?_⟩
  · simp [maybe_generate_summary, run_generation, hgen, hw, hnotlt, hf,
          clearGenerating_mk chat_id G hgen]
  · have hempty :
        (get_messages_for_summary M chat_id w
          current_message_id).isEmpty = false := by
      simpa [List.isEmpty_iff] using hne
    refine ⟨fun e hm => ?_, fun r e hm hs => ?_, fun r e hm hs hswm => ?_,
            fun r e hm hs hswm hsv => ?_⟩
    · simp [maybe_generate_summary, run_generation, hgen, hw, hnotlt, hf,
            hempty, hm, clearGenerating_mk chat_id G hgen]
    · simp [maybe_generate_summary, run_generation, hgen, hw, hnotlt, hf,
            hempty, hm, hs, clearGenerating_mk chat_id G hgen]
    · simp [maybe_generate_summary, run_generation, hgen, hw, hnotlt, hf,
            hempty, hm, hs, hswm, clearGenerating_mk chat_id G hgen]
    · simp [maybe_generate_summary, run_generation, hgen, hw, hnotlt, hf,
            hempty, hm, hs, hswm, hsv, clearGenerating_mk chat_id G hgen]

theorem c4_error_paths_witness :
    (1 ∉ stWmEx.generatingChats) ∧
    (lookupAssoc stWmEx.watermarks 1 = some 100) ∧
    (chatInterval cfgEx 1 ≤ 107 - 100) ∧
    ((∀ e, envSaveFailEx.fetchOk = .error e →
      maybe_generate_summary cfgEx envSaveFailEx stWmEx stWmEx 107 1 =
        ({ attempted := true, last_summary_id := some 100,
           reason := some "error", error := some e }, stWmEx, 0)) ∧
    (envSaveFailEx.fetchOk = .ok () →
     get_messages_for_summary stWmEx.store 1 100 107 ≠ [] →
     ((∀ e, envSaveFailEx.modelResult = .error e →
        maybe_generate_summary cfgEx envSaveFailEx stWmEx stWmEx 107 1 =
          ({ attempted := true, last_summary_id := some 100,
             messages_count :=
               some (get_messages_for_summary stWmEx.store 1 100 107).length,
             reason := some "error", error := some e }, stWmEx, 1)) ∧
      (∀ r e, envSaveFailEx.modelResult = .ok r →
       envSaveFailEx.sendOk = .error e →
        maybe_generate_summary cfgEx envSaveFailEx stWmEx stWmEx 107 1 =
          ({ attempted := true, last_summary_id := some 100,
             messages_count :=
               some (get_messages_for_summary stWmEx.store 1 100 107).length,
             reason := some "error", error := some e }, stWmEx, 1)) ∧
      (∀ r e, envSaveFailEx.modelResult = .ok r → envSaveFailEx.sendOk = .ok () →
       envSaveFailEx.setWatermarkOk = .error e →
        maybe_generate_summary cfgEx envSaveFailEx stWmEx stWmEx 107 1 =
          ({ attempted := true, last_summary_id := some 100,
             messages_count :=
               some (get_messages_for_summary stWmEx.store 1 100 107).length,
             model := some r.model, summary_chars := some r.text.length,
             cost := r.cost,
             reason := some "error", error := some e }, stWmEx, 1)) ∧
      (∀ r e, envSaveFailEx.modelResult = .ok r → envSaveFailEx.sendOk = .ok () →
       envSaveFailEx.setWatermarkOk = .ok () →
       envSaveFailEx.saveSummaryOk = .error e →
        maybe_generate_summary cfgEx envSaveFailEx stWmEx stWmEx 107 1 =
          ({ attempted := true, sent := true, last_summary_id := some 100,
             new_last_summary_id := some 107,
             messages_count :=
               some (get_messages_for_summary stWmEx.store 1 100 107).length,
             model := some r.model, summary_chars := some r.text.length,
             cost := r.cost,
             reason := some "error", error := some e },
           { stWmEx with watermarks := setAssoc stWmEx.watermarks 1 107 },
           1))))) :=
  ⟨by decide, by decide, by decide,
   c4_error_paths cfgEx envSaveFailEx stWmEx 107 1 100
     (by decide) (by decide) (by decide)⟩

theorem string_isEmpty_false {s : String} (h : s ≠ "") : s.isEmpty = false := by
  rw [Bool.eq_false_iff]
  exact fun he => h ((String.isEmpty_iff s).mp he)

/-- Claim C3: a sticker whose `file_unique_id` is cached gets the cached
text as its description with no cost recorded and no remote call and no
cache write; an uncached sticker that is describable (static, or
animated/video with a thumbnail) issues exactly one vision call and, on
success, stores the description and appends it to the cache keyed by
`file_unique_id`. -/
theorem c3_sticker_cache (env : DescribeEnv) (cache : List (String × String))
    (message : TgMessage) (att : AttInfo) (sticker : TgSticker)
    (hs : message.sticker = some sticker)
    (ht : att.type = "sticker")
    (hc : att.describe_cost = none) :
    (∀ d, lookupAssoc cache sticker.file_unique_id = some d →
      _describe_attachment env cache message (some att) =
        (some { att with description := some d }, cache, 0) ∧
      ({ att with description := some d } : AttInfo).describe_cost = none) ∧
    (lookupAssoc cache sticker.file_unique_id = none →
     (sticker.is_animated = true ∨ sticker.is_video = true →
       sticker.thumbnail.isSome) →
     env.downloadResult = .ok () →
     ∀ r, env.visionResult = .ok r →
      _describe_attachment env cache message (some att) =
        (some { att with description := some r.text, describe_cost := r.cost },
         cache ++ [(sticker.file_unique_id, r.text)], 1)) := by
  constructor
  · intro d hcache
    refine ⟨?_, hc⟩
    simp [_describe_attachment, ht, hs, hcache]
  · intro hcache hthumb hdl r hvr
    simp [_describe_attachment, ht, hs, hcache, hdl, hvr]
    intro h
    exact Option.isSome_iff_ne_none.mp (hthumb h)

def stickerEx : TgSticker := { file_id := "f1", file_unique_id := "abc123" }

def stickerMsgEx : TgMessage :=
  { chat_id := 1, message_id := 5, content_type := "sticker",
    sticker := some stickerEx }

def attStickerEx : AttInfo := { type := "sticker", emoji := some "" }

def cacheEx : List (String × String) := [("abc123", "a dancing cat")]

def denvOkEx : DescribeEnv := { visionResult := .ok { text := "a dancing cat" } }

theorem c3_sticker_cache_witness :
    (stickerMsgEx.sticker = some stickerEx) ∧
    (attStickerEx.type = "sticker") ∧
    (attStickerEx.describe_cost = none) ∧
    ((∀ d, lookupAssoc cacheEx stickerEx.file_unique_id = some d →
      _describe_attachment denvOkEx cacheEx stickerMsgEx (some attStickerEx) =
        (some { attStickerEx with description := some d }, cacheEx, 0) ∧
      ({ attStickerEx with description := some d } : AttInfo).describe_cost
        = none) ∧
    (lookupAssoc cacheEx stickerEx.file_unique_id = none →
     (stickerEx.is_animated = true ∨ stickerEx.is_video = true →
       stickerEx.thumbnail.isSome) →
     denvOkEx.downloadResult = .ok () →
     ∀ r, denvOkEx.visionResult = .ok r →
      _describe_attachment denvOkEx cacheEx stickerMsgEx (some attStickerEx) =
        (some { attStickerEx with description := some r.text, describe_cost := r.cost },
         cacheEx ++ [(stickerEx.file_unique_id, r.text)], 1))) :=
  ⟨by decide, by decide, by decide,
   c3_sticker_cache denvOkEx cacheEx stickerMsgEx attStickerEx stickerEx
     (by decide) (by decide) (by decide)⟩

def voiceMsgEx : TgMessage :=
  { chat_id := 1, message_id := 6, content_type := "voice" }

/-- Claim C7, evaluation at the failing input: for an inbound voice
message, `get_attachment_info` produces a `voice` attachment, but
`_describe_attachment` — whose dispatch handles only `photo`, `sticker`
and `video_note` — returns it untouched: no description, no cache change,
and zero model calls. The audio path described by the claim
(`describe_voice` in src/llm.py: fetch, OGG→MP3 transcode, audio-model
transcription) exists in the repository but is never invoked by the
pipeline, and the `VOICE_MODEL` it imports is absent from src/config.py. -/
theorem c7_voice_not_described :
    get_attachment_info voiceMsgEx = some { type := "voice" } ∧
    _describe_attachment denvOkEx cacheEx voiceMsgEx
        (get_attachment_info voiceMsgEx) =
      (some { type := "voice" }, cacheEx, 0) := by
  refine ⟨?_, ?_⟩ <;> decide

def msgTextPhotoEx : MsgData :=
  { message_id := 1, sender_name := "Alice", text := "hi",
    attachment := some { type := "photo" } }

/-- Claim C8, counterexample: for a message with both non-empty text and
a (description-less) photo attachment, the assembler renders the
indented text BEFORE the attachment block, not after it as claimed. -/
theorem c8_counterexample :
    format_message_for_prompt msgTextPhotoEx = "### 1 Alice\n  hi\n<photo />" ∧
    format_message_for_prompt msgTextPhotoEx ≠ "### 1 Alice\n<photo />\n  hi" := by
  refine ⟨?_, ?_⟩ <;> decide

/-- Claim C8 (amended): for every rendered message whose attachment
produces a block, the message's text/caption — indented two spaces per
line — is placed after the header and BEFORE the attachment block, and
the text part is omitted entirely when the text is empty. -/
theorem c8_text_before_attachment (m : MsgData) (b : String)
    (hb : _format_attachment_block m.attachment (_get_attachment_description m)
      = some b) :
    (m.text ≠ "" →
      format_message_for_prompt m =
        messageHeader m ++ "\n" ++ _indent m.text ++ "\n" ++ b) ∧
    (m.text = "" →
      format_message_for_prompt m = messageHeader m ++ "\n" ++ b) := by
  constructor
  · intro htext
    simp [format_message_for_prompt, hb, string_isEmpty_false htext,
          joinParts, String.append_assoc]
  · intro htext
    have he : m.text.isEmpty = true := by rw [htext]; rfl
    simp [format_message_for_prompt, hb, he, joinParts]

theorem c8_text_before_attachment_witness :
    (_format_attachment_block msgTextPhotoEx.attachment
       (_get_attachment_description msgTextPhotoEx) = some "<photo />") ∧
    ((msgTextPhotoEx.text ≠ "" →
      format_message_for_prompt msgTextPhotoEx =
        messageHeader msgTextPhotoEx ++ "\n" ++ _indent msgTextPhotoEx.text
          ++ "\n" ++ "<photo />") ∧
     (msgTextPhotoEx.text = "" →
      format_message_for_prompt msgTextPhotoEx =
        messageHeader msgTextPhotoEx ++ "\n" ++ "<photo />")) :=
  ⟨by decide, c8_text_before_attachment msgTextPhotoEx "<photo />" (by decide)⟩

/-- Claim C9, counterexample: a sticker with an emoji and no description
renders the emoji inside paired tags, not a self-closing placeholder; a
`video` attachment with a description still renders the self-closing
`<video />`, not the description inside paired tags. -/
theorem c9_counterexample :
    _format_attachment_block (some { type := "sticker", emoji := some "🎉" })
      none = some "<sticker>🎉</sticker>" ∧
    _format_attachment_block (some { type := "video" }) (some "a cat video")
      = some "<video />" := by
  refine ⟨?_, ?_⟩ <;> decide

/-- Claim C9 (amended): the fixed type→markup mapping. `photo`, `voice`
and `video_note` render a self-closing tag without a description and the
indented description inside paired tags with one; a `sticker` renders the
indented description inside paired tags when described, otherwise its
emoji inside paired tags when a non-empty emoji is present, and a
self-closing tag only when neither; `video`, `animation` and `location`
always render self-closing tags regardless of any description;
`document` and `new_members` render structural fields inside paired tags;
`poll` ignores the description. -/
theorem c9_attachment_markup (att : AttInfo) (d : String) (hd : d ≠ "") :
    (att.type = "photo" →
      _format_attachment_block (some att) (some d) =
        some ("<photo>\n" ++ _indent d ++ "\n</photo>") ∧
      _format_attachment_block (some att) none = some "<photo />") ∧
    (att.type = "voice" →
      _format_attachment_block (some att) (some d) =
        some ("<voice>\n" ++ _indent d ++ "\n</voice>") ∧
      _format_attachment_block (some att) none = some "<voice />") ∧
    (att.type = "video_note" →
      _format_attachment_block (some att) (some d) =
        some ("<video_note>\n" ++ _indent d ++ "\n</video_note>") ∧
      _format_attachment_block (some att) none = some "<video_note />") ∧
    (att.type = "sticker" →
      _format_attachment_block (some att) (some d) =
        some ("<sticker>\n" ++ _indent d ++ "\n</sticker>") ∧
      (att.emoji.getD "" ≠ "" →
        _format_attachment_block (some att) none =
          some ("<sticker>" ++ att.emoji.getD "" ++ "</sticker>")) ∧
      (att.emoji.getD "" = "" →
        _format_attachment_block (some att) none = some "<sticker />")) ∧
    (att.type = "video" →
      _format_attachment_block (some att) (some d) = some "<video />" ∧
      _format_attachment_block (some att) none = some "<video />") ∧
    (att.type = "animation" →
      _format_attachment_block (some att) (some d) = some "<gif />" ∧
      _format_attachment_block (some att) none = some "<gif />") ∧
    (att.type = "location" →
      _format_attachment_block (some att) (some d) = some "<location />" ∧
      _format_attachment_block (some att) none = some "<location />") ∧
    (att.type = "document" →
      _format_attachment_block (some att) (some d) =
        some ("<document>" ++ att.file_name.getD "файл" ++ "</document>") ∧
      _format_attachment_block (some att) none =
        some ("<document>" ++ att.file_name.getD "файл" ++ "</document>")) ∧
    (att.type = "poll" →
      _format_attachment_block (some att) (some d) =
        _format_attachment_block (some att) none) ∧
    (att.type = "new_members" →
      _format_attachment_block (some att) (some d) =
        some ("<new_members>" ++ att.names.getD "" ++ "</new_members>") ∧
      _format_attachment_block (some att) none =
        some ("<new_members>" ++ att.names.getD "" ++ "</new_members>")) := by
  refine ⟨fun h => ?_, fun h => ?_, fun h => ?_, fun h => ?_, fun h => ?_,
          fun h => ?_, fun h => ?_, fun h => ?_, fun h => ?_, fun h => ?_⟩
  case refine_4 =>
    by_cases he : att.emoji.getD "" = "" <;>
      simp [_format_attachment_block, h, truthyOptStr,
            string_isEmpty_false hd, he]
  all_goals
    simp [_format_attachment_block, h, truthyOptStr, string_isEmpty_false hd]

def attStickerEmojiEx : AttInfo := { type := "sticker", emoji := some "🎉" }

theorem c9_attachment_markup_witness :
    ("desc" ≠ "") ∧
    ((attStickerEmojiEx.type = "photo" →
      _format_attachment_block (some attStickerEmojiEx) (some "desc") =
        some ("<photo>\n" ++ _indent "desc" ++ "\n</photo>") ∧
      _format_attachment_block (some attStickerEmojiEx) none = some "<photo />") ∧
    (attStickerEmojiEx.type = "voice" →
      _format_attachment_block (some attStickerEmojiEx) (some "desc") =
        some ("<voice>\n" ++ _indent "desc" ++ "\n</voice>") ∧
      _format_attachment_block (some attStickerEmojiEx) none = some "<voice />") ∧
    (attStickerEmojiEx.type = "video_note" →
      _format_attachment_block (some attStickerEmojiEx) (some "desc") =
        some ("<video_note>\n" ++ _indent "desc" ++ "\n</video_note>") ∧
      _format_attachment_block (some attStickerEmojiEx) none
        = some "<video_note />") ∧
    (attStickerEmojiEx.type = "sticker" →
      _format_attachment_block (some attStickerEmojiEx) (some "desc") =
        some ("<sticker>\n" ++ _indent "desc" ++ "\n</sticker>") ∧
      (attStickerEmojiEx.emoji.getD "" ≠ "" →
        _format_attachment_block (some attStickerEmojiEx) none =
          some ("<sticker>" ++ attStickerEmojiEx.emoji.getD "" ++ "</sticker>")) ∧
      (attStickerEmojiEx.emoji.getD "" = "" →
        _format_attachment_block (some attStickerEmojiEx) none
          = some "<sticker />")) ∧
    (attStickerEmojiEx.type = "video" →
      _format_attachment_block (some attStickerEmojiEx) (some "desc")
        = some "<video />" ∧
      _format_attachment_block (some attStickerEmojiEx) none
        = some "<video />") ∧
    (attStickerEmojiEx.type = "animation" →
      _format_attachment_block (some attStickerEmojiEx) (some "desc")
        = some "<gif />" ∧
      _format_attachment_block (some attStickerEmojiEx) none = some "<gif />") ∧
    (attStickerEmojiEx.type = "location" →
      _format_attachment_block (some attStickerEmojiEx) (some "desc")
        = some "<location />" ∧
      _format_attachment_block (some attStickerEmojiEx) none
        = some "<location />") ∧
    (attStickerEmojiEx.type = "document" →
      _format_attachment_block (some attStickerEmojiEx) (some "desc") =
        some ("<document>" ++ attStickerEmojiEx.file_name.getD "файл"
          ++ "</document>") ∧
      _format_attachment_block (some attStickerEmojiEx) none =
        some ("<document>" ++ attStickerEmojiEx.file_name.getD "файл"
          ++ "</document>")) ∧
    (attStickerEmojiEx.type = "poll" →
      _format_attachment_block (some attStickerEmojiEx) (some "desc") =
        _format_attachment_block (some attStickerEmojiEx) none) ∧
    (attStickerEmojiEx.type = "new_members" →
      _format_attachment_block (some attStickerEmojiEx) (some "desc") =
        some ("<new_members>" ++ attStickerEmojiEx.names.getD ""
          ++ "</new_members>") ∧
      _format_attachment_block (some attStickerEmojiEx) none =
        some ("<new_members>" ++ attStickerEmojiEx.names.getD ""
          ++ "</new_members>"))) :=
  ⟨by decide, c9_attachment_markup attStickerEmojiEx "desc" (by decide)⟩

/-- Claim C10: the record persisted by the ingestion handler carries no
`forward_sender_name` (the handler never computes one, although the
resolver `get_forward_sender_name` exists), so the prompt assembler's
label list for any such record contains only the optional `reply to`
label — never a `forward from <name>` label — even when the inbound
message was a forward. -/
theorem c10_no_forward_label (message : TgMessage) (attachment : Option AttInfo) :
    (saved_message_record message attachment).forward_sender_name = none ∧
    messageLabels (saved_message_record message attachment) =
      (if truthyOptInt message.reply_to_message_id then
        ["reply to " ++ toString (message.reply_to_message_id.getD 0)]
       else []) := by
  refine ⟨rfl, ?_⟩
  simp [messageLabels, saved_message_record, truthyOptStr]
